import Mathlib

/-!
# litekube-vpn: gRPC server start-up and token interceptor

A shallow embedding of `grpc/grpc_server/grpc_server_init.go`:

* `TokenInterceptor` — the unary interceptor that looks for a
  `bootstrap-token` or a `node-token` key in the incoming metadata;
* `GrpcServer.StartGrpcServerTcp` — certificate check, bind, credential
  construction, server construction and serve.

Go values are modelled as follows.  A Go `(T, error)` result is a pair whose
second component is `Option GoError` (`none` is a nil error).  A nil
interface or nil pointer is `none`.  Effects (handler invocations, calls into
the gRPC / net / logging libraries) are recorded in an explicit log that the
function returns next to its result.  Everything that lives outside the file
(the file system, the network, the `certs` package) is a field of `World`.
-/

namespace codes

/-- The gRPC status codes of `google.golang.org/grpc/codes`. -/
inductive Code
  | OK
  | Canceled
  | Unknown
  | InvalidArgument
  | DeadlineExceeded
  | NotFound
  | AlreadyExists
  | PermissionDenied
  | ResourceExhausted
  | FailedPrecondition
  | Aborted
  | OutOfRange
  | Unimplemented
  | Internal
  | Unavailable
  | DataLoss
  | Unauthenticated
  deriving DecidableEq, Repr

end codes

/-- A Go `error` value: either a gRPC status error (code and message) or any
other error, identified by its text. -/
inductive GoError
  | status (code : codes.Code) (msg : String)
  | other (msg : String)
  deriving DecidableEq, Repr

namespace GoError

/-- The status code of an error, as `status.Code(err)` reports it for a
non-nil error: the code of a status error, `Unknown` for any other. -/
def code : GoError → codes.Code
  | .status c _ => c
  | .other _ => codes.Code.Unknown

/-- The message of an error. -/
def message : GoError → String
  | .status _ m => m
  | .other m => m

end GoError

namespace status

/-- `status.Errorf(c, format)` with no further arguments and a format without
verbs: the status error with code `c` whose message is `format`.  (Both call
sites in the file pass a plain text and a non-OK code.) -/
def Errorf (c : codes.Code) (format : String) : Option GoError :=
  if c = codes.Code.OK then none else some (GoError.status c format)

end status

namespace strings

/-- Whether `substr` occurs in `s` starting at some position, on character
lists: tried at the head, then in the tail. -/
def containsChars : List Char → List Char → Bool
  | [], substr => substr.isEmpty
  | c :: cs, substr => substr.isPrefixOf (c :: cs) || containsChars cs substr

/-- `strings.Contains(s, substr)`: `substr` is within `s`. -/
def Contains (s substr : String) : Bool :=
  containsChars s.data substr.data

end strings

namespace metadata

/-- `metadata.MD`, a `map[string][]string`, as an association list; a key is
looked up with `MD.lookup`. -/
abbrev MD := List (String × List String)

/-- The Go map index `md[k]` in its two-result form: the value stored under
the first entry with key `k`, and `none` when there is no such entry. -/
def MD.lookup (md : MD) (k : String) : Option (List String) :=
  match md with
  | [] => none
  | (k', v) :: rest => if k' = k then some v else MD.lookup rest k

/-- The `ok` of `_, ok := md[k]`. -/
def MD.hasKey (md : MD) (k : String) : Bool :=
  (MD.lookup md k).isSome

end metadata

/-- An `interface{}` payload (a request or response message). -/
structure Any where
  payload : String
  deriving DecidableEq, Repr

/-- A `context.Context`, as far as this file looks into it: the incoming
metadata attached by the transport (absent when `incoming = none`) and the
remaining context values. -/
structure Context where
  incoming : Option metadata.MD
  values : List (String × String)
  deriving DecidableEq, Repr

namespace metadata

/-- `metadata.FromIncomingContext(ctx)`: the metadata and `true`, or nothing
when the context carries none.  The map it returns is what `TokenInterceptor`
indexes; `Context.incoming` stands for that map. -/
def FromIncomingContext (ctx : Context) : Option MD :=
  ctx.incoming

end metadata

/-- The `grpc.UnaryServerInfo` of a call. -/
structure UnaryServerInfo where
  FullMethod : String
  deriving DecidableEq, Repr

/-- A `grpc.UnaryHandler`: from context and request to `(resp, err)`. -/
abbrev UnaryHandler := Context → Any → Option Any × Option GoError

/-- What one run of an interceptor did: the `(resp, err)` it returned and the
handler invocations it made, in order, each with the arguments passed. -/
structure Invocation where
  resp : Option Any
  err : Option GoError
  calls : List (Context × Any)
  deriving DecidableEq, Repr

/-- The statement `return handler(ctx, req)`: one handler invocation, whose
results are returned as they are. -/
def callHandler (handler : UnaryHandler) (ctx : Context) (req : Any) : Invocation :=
  { resp := (handler ctx req).1, err := (handler ctx req).2, calls := [(ctx, req)] }

/-- The statement `return nil, err` before any handler invocation. -/
def reject (err : Option GoError) : Invocation :=
  { resp := none, err := err, calls := [] }

/-- `TokenInterceptor` of `grpc_server_init.go`. -/
def TokenInterceptor (ctx : Context) (req : Any) (info : UnaryServerInfo)
    (handler : UnaryHandler) : Invocation :=
  match metadata.FromIncomingContext ctx with
  | none => reject (status.Errorf codes.Code.Unauthenticated "no metadata")
  | some md =>
    if strings.Contains info.FullMethod "/GetToken" then
      if !(metadata.MD.hasKey md "bootstrap-token") then
        reject (status.Errorf codes.Code.Aborted "plz provide bootstrap-token")
      else
        callHandler handler ctx req
    else
      if !(metadata.MD.hasKey md "node-token") then
        reject (status.Errorf codes.Code.Aborted "plz provide node-token")
      else
        callHandler handler ctx req

/-! ## Server start-up -/

/-- File contents (`[]byte`); nil and empty are not told apart. -/
abbrev Bytes := String

/-- `len(s)` of a Go string: its length in bytes. -/
def len (s : String) : Nat :=
  s.utf8ByteSize

namespace config

/-- `config.TLSConfig`: the six file paths of one channel. -/
structure TLSConfig where
  CAFile : String
  CAKeyFile : String
  ServerCertFile : String
  ServerKeyFile : String
  ClientCertFile : String
  ClientKeyFile : String
  deriving DecidableEq, Repr

end config

namespace tls

/-- A `tls.Certificate`: the certificate chain (Go field `Certificate`) and
the private key.  The zero value `Certificate{}` has an empty chain and no
key. -/
structure Certificate where
  Chain : List Bytes
  PrivateKey : Option Bytes
  deriving DecidableEq, Repr

/-- The zero value `tls.Certificate{}`. -/
def Certificate.zero : Certificate :=
  { Chain := [], PrivateKey := none }

/-- `tls.ClientAuthType`, in the order of the Go constants; the zero value is
`NoClientCert`. -/
inductive ClientAuthType
  | NoClientCert
  | RequestClientCert
  | RequireAnyClientCert
  | VerifyClientCertIfGiven
  | RequireAndVerifyClientCert
  deriving DecidableEq, Repr

end tls

namespace x509

/-- An `x509.CertPool`: the certificates it holds. -/
structure CertPool where
  certs : List Bytes
  deriving DecidableEq, Repr

/-- `x509.NewCertPool()`: an empty pool. -/
def NewCertPool : CertPool :=
  { certs := [] }

end x509

namespace tls

/-- The fields of `tls.Config` that the file sets; a field left out of a
composite literal has its zero value (`NoClientCert`, nil pool). -/
structure Config where
  Certificates : List Certificate
  ClientAuth : ClientAuthType
  ClientCAs : Option x509.CertPool
  deriving DecidableEq, Repr

end tls

namespace credentials

/-- A `credentials.TransportCredentials` made by `credentials.NewTLS`: the
TLS configuration it carries. -/
structure TransportCredentials where
  config : tls.Config
  deriving DecidableEq, Repr

/-- `credentials.NewTLS(c)`. -/
def NewTLS (c : tls.Config) : TransportCredentials :=
  { config := c }

end credentials

/-- A bound `net.Listener`. -/
structure Listener where
  addr : String
  deriving DecidableEq, Repr

/-- A `grpc.UnaryServerInterceptor`. -/
abbrev UnaryServerInterceptor := Context → Any → UnaryServerInfo → UnaryHandler → Invocation

namespace grpc

/-- The `grpc.ServerOption` values the file builds or could build:
`grpc.Creds(c)` and `grpc.UnaryInterceptor(i)`. -/
inductive ServerOption
  | Creds (c : credentials.TransportCredentials)
  | UnaryInterceptor (i : UnaryServerInterceptor)

/-- Whether an option is a `grpc.UnaryInterceptor(_)`. -/
def ServerOption.isUnaryInterceptor : ServerOption → Bool
  | .Creds _ => false
  | .UnaryInterceptor _ => true

/-- The credential a server built from `opts` uses: `grpc.NewServer` applies
the options in order and each `Creds` option overwrites the credential set
before it, so the last one is in effect; `none` when there is no `Creds`. -/
def effectiveCreds (opts : List ServerOption) : Option credentials.TransportCredentials :=
  opts.foldl (fun acc o =>
    match o with
    | .Creds c => some c
    | .UnaryInterceptor _ => acc) none

end grpc

/-- Everything `StartGrpcServerTcp` reaches outside the file.

* `CheckGrpcClientCertConfig` is `certs.CheckGrpcClientCertConfig`, a function
  of the repository's `certs` package; it is taken as given.
* `Listen` is `net.Listen`, returning `(lis, err)`.
* `ReadFile` is `ioutil.ReadFile`, returning `(data, err)`.
* `X509KeyPair` is `tls.X509KeyPair` on two PEM blocks.
* `PEMCertificates pem` are the certificates `AppendCertsFromPEM` manages to
  parse out of `pem`.
* `Serve lis` is what the blocking `server.Serve(lis)` eventually returns. -/
structure World where
  CheckGrpcClientCertConfig : config.TLSConfig → String → Option GoError
  Listen : String → String → Option Listener × Option GoError
  ReadFile : String → Bytes × Option GoError
  X509KeyPair : Bytes → Bytes → Except GoError tls.Certificate
  PEMCertificates : Bytes → List Bytes
  Serve : Listener → Option GoError

namespace tls

/-- `tls.LoadX509KeyPair(certFile, keyFile)`: reads the two files and parses
them as a pair; on any failure the result is `(Certificate{}, err)`. -/
def LoadX509KeyPair (w : World) (certFile keyFile : String) : Certificate × Option GoError :=
  match w.ReadFile certFile with
  | (_, some err) => (Certificate.zero, some err)
  | (certPEMBlock, none) =>
    match w.ReadFile keyFile with
    | (_, some err) => (Certificate.zero, some err)
    | (keyPEMBlock, none) =>
      match w.X509KeyPair certPEMBlock keyPEMBlock with
      | .error err => (Certificate.zero, some err)
      | .ok cert => (cert, none)

end tls

namespace credentials

/-- `credentials.NewServerTLSFromFile(certFile, keyFile)`: loads the pair and
wraps it in a TLS configuration that sets `Certificates` only. -/
def NewServerTLSFromFile (w : World) (certFile keyFile : String) :
    Except GoError TransportCredentials :=
  match tls.LoadX509KeyPair w certFile keyFile with
  | (_, some err) => .error err
  | (cert, none) =>
    .ok (NewTLS { Certificates := [cert], ClientAuth := tls.ClientAuthType.NoClientCert,
                  ClientCAs := none })

end credentials

namespace x509

/-- `certPool.AppendCertsFromPEM(pem)`: adds every certificate that parses and
reports whether there was at least one. -/
def CertPool.AppendCertsFromPEM (w : World) (pool : CertPool) (pem : Bytes) : CertPool × Bool :=
  ({ certs := pool.certs ++ w.PEMCertificates pem }, !(w.PEMCertificates pem).isEmpty)

end x509

/-- The levels of the `go-logging` logger that the file uses. -/
inductive LogLevel
  | Debug
  | Info
  | Error
  deriving DecidableEq, Repr

/-- An effect of `StartGrpcServerTcp`, in the order it happens. -/
inductive Event
  | log (level : LogLevel) (format : String) (args : List String)
  | Listen (network address : String)
  | NewServer (opts : List grpc.ServerOption)
  | reflectionRegister
  | RegisterLiteKubeNCServiceServer
  | goStopWatcher
  | Serve (lis : Listener)
  | Close (lis : Listener)

/-- How a call ended: an ordinary return of an `error` value (`none` is nil),
or a run-time panic leaving the function. -/
inductive Outcome
  | returned (err : Option GoError)
  | panicked (msg : String)
  deriving DecidableEq, Repr

/-- One run of `StartGrpcServerTcp`: how it ended and what it did. -/
structure Run where
  outcome : Outcome
  trace : List Event

/-- The fields of `GrpcServer` that `StartGrpcServerTcp` reads, with the other
two ports and the second TLS configuration. -/
structure GrpcServer where
  port : Int
  bootstrapPort : Int
  networkServerPort : Int
  grpcTlsConfig : config.TLSConfig
  networkTlsConfig : config.TLSConfig
  tlsDir : String
  deriving DecidableEq, Repr

/-- The text of Go's nil-dereference run-time panic. -/
def nilDereference : String :=
  "runtime error: invalid memory address or nil pointer dereference"

/-- The log entry of `logger.Errorf(format, err)` (or `logger.Error(err)` with
an empty format). -/
def logErr (format : String) (err : GoError) : Event :=
  Event.log LogLevel.Error format [err.message]

/-- Lines 115-173 of `StartGrpcServerTcp`: from `gopts := []grpc.ServerOption{}`
to the return after `server.Serve(lis)`, with a bound listener `lis`.  The
result is the returned error and the effects, without the deferred calls. -/
def GrpcServer.serveOn (w : World) (s : GrpcServer) (lis : Listener) (tcpAddr : String) :
    Option GoError × List Event :=
  let gopts : List grpc.ServerOption := []
  let certFile := s.grpcTlsConfig.ServerCertFile
  let keyFile := s.grpcTlsConfig.ServerKeyFile
  let first : Except GoError (List grpc.ServerOption) :=
    if len certFile != 0 && len keyFile != 0 then
      match credentials.NewServerTLSFromFile w certFile keyFile with
      | .error err => .error err
      | .ok creds => .ok (gopts ++ [grpc.ServerOption.Creds creds])
    else
      .ok gopts
  match first with
  | .error err => (some err, [logErr "" err])
  | .ok gopts =>
    let loaded := tls.LoadX509KeyPair w certFile keyFile
    let cert := loaded.1
    let logLoad := match loaded.2 with
      | some err => [logErr "tls.LoadX509KeyPair err: %v" err]
      | none => []
    let certPool := x509.NewCertPool
    let read := w.ReadFile s.grpcTlsConfig.CAFile
    let ca := read.1
    let logRead := match read.2 with
      | some err => [logErr "ioutil.ReadFile err: %v" err]
      | none => []
    let appended := x509.CertPool.AppendCertsFromPEM w certPool ca
    let certPool := appended.1
    let logAppend :=
      if !appended.2 then [Event.log LogLevel.Error "certPool.AppendCertsFromPEM err" []] else []
    let creds := credentials.NewTLS
      { Certificates := [cert],
        ClientAuth := tls.ClientAuthType.RequireAndVerifyClientCert,
        ClientCAs := some certPool }
    let gopts := gopts ++ [grpc.ServerOption.Creds creds]
    let started := logLoad ++ logRead ++ logAppend ++
      [Event.NewServer gopts, Event.reflectionRegister, Event.RegisterLiteKubeNCServiceServer,
       Event.log LogLevel.Info "grpc server ready to serve at %+v" [tcpAddr],
       Event.goStopWatcher, Event.Serve lis]
    match w.Serve lis with
    | some err => (some err, started ++ [logErr "grpc server failed to serve: %v" err])
    | none => (none, started)

/-- `(*GrpcServer).StartGrpcServerTcp` of `grpc_server_init.go`.

The two `defer` statements run in reverse order when the function is left,
also when it is left by a panic.  `defer lis.Close()` stands before the check
of the error of `net.Listen`: the method value `lis.Close` is evaluated when
the `defer` statement executes, which for a nil interface is a run-time
panic. -/
def GrpcServer.StartGrpcServerTcp (w : World) (s : GrpcServer) : Run :=
  let done := Event.log LogLevel.Debug "StartGrpcServerTcp done" []
  match w.CheckGrpcClientCertConfig s.grpcTlsConfig s.tlsDir with
  | some err =>
    { outcome := Outcome.returned (some err),
      trace := [logErr "CheckGrpcClientCertConfig err: %+v" err, done] }
  | none =>
    let tcpAddr := ":" ++ toString s.port
    match w.Listen "tcp" tcpAddr with
    | (none, _) =>
      { outcome := Outcome.panicked nilDereference,
        trace := [Event.Listen "tcp" tcpAddr, done] }
    | (some lis, some err) =>
      { outcome := Outcome.returned (some err),
        trace := [Event.Listen "tcp" tcpAddr, logErr "tcp failed to listen: %v" err,
                  Event.Close lis, done] }
    | (some lis, none) =>
      { outcome := Outcome.returned (GrpcServer.serveOn w s lis tcpAddr).1,
        trace := Event.Listen "tcp" tcpAddr :: (GrpcServer.serveOn w s lis tcpAddr).2 ++
                  [Event.Close lis, done] }

/-- The option list of a `grpc.NewServer(opts...)` event. -/
def Event.serverOptions : Event → Option (List grpc.ServerOption)
  | .NewServer opts => some opts
  | _ => none

/-- Whether an event is a call of `server.Serve`. -/
def Event.isServe : Event → Bool
  | .Serve _ => true
  | _ => false

/-- The option list handed to `grpc.NewServer` in a run, if it got there. -/
def Run.serverOptions (r : Run) : Option (List grpc.ServerOption) :=
  r.trace.findSome? Event.serverOptions

/-- Whether `server.Serve` was called in a run. -/
def Run.served (r : Run) : Bool :=
  r.trace.any Event.isServe

/-- The credential built at lines 124-146 of `StartGrpcServerTcp`, as an
expression of the world and the configuration: whatever
`tls.LoadX509KeyPair` returned as certificate, the require-and-verify policy,
and the pool after `AppendCertsFromPEM` on whatever `ioutil.ReadFile` returned
as data. -/
def GrpcServer.mutualCreds (w : World) (s : GrpcServer) : credentials.TransportCredentials :=
  credentials.NewTLS
    { Certificates :=
        [(tls.LoadX509KeyPair w s.grpcTlsConfig.ServerCertFile s.grpcTlsConfig.ServerKeyFile).1],
      ClientAuth := tls.ClientAuthType.RequireAndVerifyClientCert,
      ClientCAs := some (x509.CertPool.AppendCertsFromPEM w x509.NewCertPool
        (w.ReadFile s.grpcTlsConfig.CAFile).1).1 }

/-- The credential built at line 117 of `StartGrpcServerTcp` when
`credentials.NewServerTLSFromFile` succeeds, as an expression of the world and
the configuration: the loaded server pair and nothing else (no client-auth
policy, no ClientCAs). -/
def GrpcServer.serverOnlyCreds (w : World) (s : GrpcServer) : credentials.TransportCredentials :=
  credentials.NewTLS
    { Certificates :=
        [(tls.LoadX509KeyPair w s.grpcTlsConfig.ServerCertFile s.grpcTlsConfig.ServerKeyFile).1],
      ClientAuth := tls.ClientAuthType.NoClientCert,
      ClientCAs := none }

/-- The errors a run wrote to the log, as (format, arguments). -/
def Run.errorLog (r : Run) : List (String × List String) :=
  r.trace.filterMap (fun e =>
    match e with
    | .log LogLevel.Error f a => some (f, a)
    | _ => none)

/-! ## Concrete inputs -/

/-- A stub handler: answers the request payload it was given, without error. -/
def echoHandler : UnaryHandler :=
  fun _ req => (some { payload := "echo:" ++ req.payload }, none)

/-- A request message. -/
def sampleReq : Any :=
  { payload := "req" }

/-- A non-enrollment method of the node service. -/
def nodeMethod : UnaryServerInfo :=
  { FullMethod := "/pb.LiteKubeNCService/CheckConnState" }

/-- The enrollment method of the bootstrap service. -/
def enrollMethod : UnaryServerInfo :=
  { FullMethod := "/pb.LiteKubeNCBootstrapService/GetToken" }

/-- A context whose metadata holds `node-token: abc`. -/
def ctxNodeToken : Context :=
  { incoming := some [("node-token", ["abc"])], values := [] }

/-- A context whose metadata holds `bootstrap-token: boot`. -/
def ctxBootstrapToken : Context :=
  { incoming := some [("bootstrap-token", ["boot"])], values := [] }

/-- A context whose metadata holds `node-token` with an empty value list. -/
def ctxNodeTokenEmpty : Context :=
  { incoming := some [("node-token", [])], values := [("peer", "10.0.0.7")] }

/-- A context with metadata that holds neither token key. -/
def ctxNoToken : Context :=
  { incoming := some [("user-agent", ["grpc-go/1.46.0"])], values := [] }

/-- A context without incoming metadata. -/
def ctxNoMetadata : Context :=
  { incoming := none, values := [] }


/-- The error of opening a path that does not exist. -/
def noSuchFile (path : String) : GoError :=
  GoError.other ("open " ++ path ++ ": no such file or directory")

/-- A file system with a CA certificate, a server certificate and a server
key; every other path, the empty path included, does not exist. -/
def goodFiles (path : String) : Bytes × Option GoError :=
  if path = "tls/ca.pem" then ("CA CERT PEM", none)
  else if path = "tls/server.pem" then ("SERVER CERT PEM", none)
  else if path = "tls/server-key.pem" then ("SERVER KEY PEM", none)
  else if path = "tls/empty.pem" then ("", none)
  else ("", some (noSuchFile path))

/-- A world in which the certificate check passes, every bind succeeds, the
files of `goodFiles` exist, the server pair parses, the CA file holds one
certificate, and `Serve` returns nil after a graceful stop. -/
def goodWorld : World :=
  { CheckGrpcClientCertConfig := fun _ _ => none
    Listen := fun _ address => (some { addr := address }, none)
    ReadFile := goodFiles
    X509KeyPair := fun certPEM keyPEM =>
      if certPEM = "SERVER CERT PEM" ∧ keyPEM = "SERVER KEY PEM" then
        .ok { Chain := ["SERVER CERT DER"], PrivateKey := some "SERVER KEY" }
      else
        .error (GoError.other "tls: failed to find any PEM data in certificate input")
    PEMCertificates := fun pem => if pem = "CA CERT PEM" then ["CA CERT DER"] else []
    Serve := fun _ => none }

/-- The world `goodWorld` with the port already taken: `net.Listen` returns a
nil listener and an error. -/
def portInUseWorld : World :=
  { goodWorld with
    Listen := fun _ address =>
      (none, some (GoError.other ("listen tcp " ++ address ++ ": bind: address already in use"))) }

/-- A TLS configuration naming the three files of `goodFiles`. -/
def fullTls : config.TLSConfig :=
  { CAFile := "tls/ca.pem", CAKeyFile := "tls/ca-key.pem",
    ServerCertFile := "tls/server.pem", ServerKeyFile := "tls/server-key.pem",
    ClientCertFile := "tls/client.pem", ClientKeyFile := "tls/client-key.pem" }

/-- A server on port 6440 with the configuration `tlsCfg` on the gRPC channel. -/
def serverWith (tlsCfg : config.TLSConfig) : GrpcServer :=
  { port := 6440, bootstrapPort := 6439, networkServerPort := 6441,
    grpcTlsConfig := tlsCfg, networkTlsConfig := fullTls, tlsDir := "tls" }

/-- The configuration `fullTls` without server certificate and key paths. -/
def noServerPairTls : config.TLSConfig :=
  { fullTls with ServerCertFile := "", ServerKeyFile := "" }

/-- The configuration `fullTls` with the server certificate path left empty:
a partial configuration. -/
def partialTls : config.TLSConfig :=
  { fullTls with ServerCertFile := "" }

/-- The configuration `fullTls` with a CA path that does not exist. -/
def missingCATls : config.TLSConfig :=
  { fullTls with CAFile := "tls/absent-ca.pem" }

/-- The configuration `fullTls` with a CA file that holds no certificate. -/
def emptyCATls : config.TLSConfig :=
  { fullTls with CAFile := "tls/empty.pem" }

/-- The configuration `fullTls` with a server certificate path that does not
exist. -/
def missingCertTls : config.TLSConfig :=
  { fullTls with ServerCertFile := "tls/absent.pem" }

/-- The credential built at line 117 in `goodWorld` with `fullTls`: the server
pair only, no client-certificate policy. -/
def goodServerOnlyCreds : credentials.TransportCredentials :=
  credentials.NewTLS
    { Certificates := [{ Chain := ["SERVER CERT DER"], PrivateKey := some "SERVER KEY" }],
      ClientAuth := tls.ClientAuthType.NoClientCert,
      ClientCAs := none }

/-- The credential built at line 140 in `goodWorld` with `fullTls`. -/
def goodMutualCreds : credentials.TransportCredentials :=
  credentials.NewTLS
    { Certificates := [{ Chain := ["SERVER CERT DER"], PrivateKey := some "SERVER KEY" }],
      ClientAuth := tls.ClientAuthType.RequireAndVerifyClientCert,
      ClientCAs := some { certs := ["CA CERT DER"] } }

/-! ## Auxiliary facts about the model -/

/-- The search `containsChars` finds exactly the contiguous sublists. -/
theorem strings.containsChars_iff_infix (s substr : List Char) :
    strings.containsChars s substr = true ↔ substr <:+: s := by
  induction s with
  | nil => simp [strings.containsChars, List.isEmpty_iff]
  | cons c cs ih =>
    simp [strings.containsChars, ih, List.infix_cons_iff]

/-- The meaning of `strings.Contains`: `s` is some text, then `substr`, then
some text. -/
theorem strings.Contains_iff (s substr : String) :
    strings.Contains s substr = true ↔ ∃ a b : List Char, s.data = a ++ substr.data ++ b := by
  unfold strings.Contains
  rw [strings.containsChars_iff_infix]
  constructor
  · rintro ⟨a, b, h⟩
    exact ⟨a, b, h.symm⟩
  · rintro ⟨a, b, h⟩
    exact ⟨a, b, h.symm⟩

/-- A key is found by `hasKey` exactly when it is the key of some entry. -/
theorem metadata.MD.hasKey_iff_mem_keys (md : metadata.MD) (k : String) :
    metadata.MD.hasKey md k = true ↔ k ∈ md.map Prod.fst := by
  induction md with
  | nil => simp [metadata.MD.hasKey, metadata.MD.lookup]
  | cons e rest ih =>
    obtain ⟨k', v⟩ := e
    by_cases hk : k' = k
    · simp [metadata.MD.hasKey, metadata.MD.lookup, hk]
    · have hk' : ¬ k = k' := fun h => hk h.symm
      simpa [metadata.MD.hasKey, metadata.MD.lookup, hk, hk'] using ih

/-- Two metadata maps with the same keys answer every `hasKey` alike. -/
theorem metadata.MD.hasKey_congr (md₁ md₂ : metadata.MD)
    (hkeys : ∀ k, k ∈ md₁.map Prod.fst ↔ k ∈ md₂.map Prod.fst) (k : String) :
    metadata.MD.hasKey md₁ k = metadata.MD.hasKey md₂ k := by
  have h := hkeys k
  rw [← metadata.MD.hasKey_iff_mem_keys, ← metadata.MD.hasKey_iff_mem_keys] at h
  cases h₁ : metadata.MD.hasKey md₁ k <;> cases h₂ : metadata.MD.hasKey md₂ k <;> simp_all

/-! ## The token interceptor -/

/-- C1: for a call that carries metadata `md` and whose method name does not
contain "/GetToken": when `md` has the key "node-token" the handler is invoked
exactly once, with the same context and request, and the interceptor returns
the handler's response and error; when the key is absent the response is nil,
the error has code Aborted and the handler is not invoked. -/
theorem tokenInterceptor_node_token (ctx : Context) (req : Any) (info : UnaryServerInfo)
    (handler : UnaryHandler) (md : metadata.MD)
    (hmd : metadata.FromIncomingContext ctx = some md)
    (hmethod : strings.Contains info.FullMethod "/GetToken" = false) :
    (metadata.MD.hasKey md "node-token" = true →
      (TokenInterceptor ctx req info handler).calls = [(ctx, req)] ∧
      (TokenInterceptor ctx req info handler).resp = (handler ctx req).1 ∧
      (TokenInterceptor ctx req info handler).err = (handler ctx req).2) ∧
    (metadata.MD.hasKey md "node-token" = false →
      (TokenInterceptor ctx req info handler).calls = [] ∧
      (TokenInterceptor ctx req info handler).resp = none ∧
      (TokenInterceptor ctx req info handler).err.map GoError.code = some codes.Code.Aborted) := by
  constructor
  · intro hkey
    simp [TokenInterceptor, hmd, hmethod, hkey, callHandler]
  · intro hkey
    simp [TokenInterceptor, hmd, hmethod, hkey, reject, status.Errorf, GoError.code]

/-- C1 at concrete calls of `CheckConnState`: with `node-token: abc` the stub
handler runs once and its answer comes back; without the key the call is
aborted and the handler does not run. -/
theorem tokenInterceptor_node_token_witness :
    ((TokenInterceptor ctxNodeToken sampleReq nodeMethod echoHandler).calls
        = [(ctxNodeToken, sampleReq)] ∧
      (TokenInterceptor ctxNodeToken sampleReq nodeMethod echoHandler).resp
        = (echoHandler ctxNodeToken sampleReq).1 ∧
      (TokenInterceptor ctxNodeToken sampleReq nodeMethod echoHandler).err
        = (echoHandler ctxNodeToken sampleReq).2) ∧
    ((TokenInterceptor ctxNoToken sampleReq nodeMethod echoHandler).calls = [] ∧
      (TokenInterceptor ctxNoToken sampleReq nodeMethod echoHandler).resp = none ∧
      (TokenInterceptor ctxNoToken sampleReq nodeMethod echoHandler).err.map GoError.code
        = some codes.Code.Aborted) :=
  ⟨(tokenInterceptor_node_token ctxNodeToken sampleReq nodeMethod echoHandler
      [("node-token", ["abc"])] rfl (by decide)).1 (by decide),
   (tokenInterceptor_node_token ctxNoToken sampleReq nodeMethod echoHandler
      [("user-agent", ["grpc-go/1.46.0"])] rfl (by decide)).2 (by decide)⟩

/-- C2: for a call that carries metadata `md` and whose method name contains
"/GetToken": when `md` has the key "bootstrap-token" the handler is invoked
exactly once and its response and error are returned unchanged; when the key
is absent the response is nil, the error has code Aborted and the handler is
not invoked, whatever `md` holds under "node-token". -/
theorem tokenInterceptor_bootstrap_token (ctx : Context) (req : Any) (info : UnaryServerInfo)
    (handler : UnaryHandler) (md : metadata.MD)
    (hmd : metadata.FromIncomingContext ctx = some md)
    (hmethod : strings.Contains info.FullMethod "/GetToken" = true) :
    (metadata.MD.hasKey md "bootstrap-token" = true →
      (TokenInterceptor ctx req info handler).calls = [(ctx, req)] ∧
      (TokenInterceptor ctx req info handler).resp = (handler ctx req).1 ∧
      (TokenInterceptor ctx req info handler).err = (handler ctx req).2) ∧
    (metadata.MD.hasKey md "bootstrap-token" = false →
      (TokenInterceptor ctx req info handler).calls = [] ∧
      (TokenInterceptor ctx req info handler).resp = none ∧
      (TokenInterceptor ctx req info handler).err.map GoError.code = some codes.Code.Aborted) := by
  constructor
  · intro hkey
    simp [TokenInterceptor, hmd, hmethod, hkey, callHandler]
  · intro hkey
    simp [TokenInterceptor, hmd, hmethod, hkey, reject, status.Errorf, GoError.code]

/-- C2 at concrete calls of `GetToken`: with `bootstrap-token: boot` the stub
handler runs once; with only `node-token: abc` in the metadata the call is
aborted and the handler does not run. -/
theorem tokenInterceptor_bootstrap_token_witness :
    ((TokenInterceptor ctxBootstrapToken sampleReq enrollMethod echoHandler).calls
        = [(ctxBootstrapToken, sampleReq)] ∧
      (TokenInterceptor ctxBootstrapToken sampleReq enrollMethod echoHandler).resp
        = (echoHandler ctxBootstrapToken sampleReq).1 ∧
      (TokenInterceptor ctxBootstrapToken sampleReq enrollMethod echoHandler).err
        = (echoHandler ctxBootstrapToken sampleReq).2) ∧
    ((TokenInterceptor ctxNodeToken sampleReq enrollMethod echoHandler).calls = [] ∧
      (TokenInterceptor ctxNodeToken sampleReq enrollMethod echoHandler).resp = none ∧
      (TokenInterceptor ctxNodeToken sampleReq enrollMethod echoHandler).err.map GoError.code
        = some codes.Code.Aborted) :=
  ⟨(tokenInterceptor_bootstrap_token ctxBootstrapToken sampleReq enrollMethod echoHandler
      [("bootstrap-token", ["boot"])] rfl (by decide)).1 (by decide),
   (tokenInterceptor_bootstrap_token ctxNodeToken sampleReq enrollMethod echoHandler
      [("node-token", ["abc"])] rfl (by decide)).2 (by decide)⟩

/-- C3: for a call whose context carries no incoming metadata, whatever the
method name, the interceptor returns a nil response and an error of code
Unauthenticated, and the handler is not invoked. -/
theorem tokenInterceptor_no_metadata (ctx : Context) (req : Any) (info : UnaryServerInfo)
    (handler : UnaryHandler) (hmd : metadata.FromIncomingContext ctx = none) :
    (TokenInterceptor ctx req info handler).calls = [] ∧
    (TokenInterceptor ctx req info handler).resp = none ∧
    (TokenInterceptor ctx req info handler).err.map GoError.code
      = some codes.Code.Unauthenticated := by
  simp [TokenInterceptor, hmd, reject, status.Errorf, GoError.code]

/-- C3 at a concrete call of `GetToken` without metadata. -/
theorem tokenInterceptor_no_metadata_witness :
    (TokenInterceptor ctxNoMetadata sampleReq enrollMethod echoHandler).calls = [] ∧
    (TokenInterceptor ctxNoMetadata sampleReq enrollMethod echoHandler).resp = none ∧
    (TokenInterceptor ctxNoMetadata sampleReq enrollMethod echoHandler).err.map GoError.code
      = some codes.Code.Unauthenticated :=
  tokenInterceptor_no_metadata ctxNoMetadata sampleReq enrollMethod echoHandler rfl

/-- C9: the interceptor looks at the keys of the metadata only.  For one
method name and two calls whose metadata maps have the same set of keys
(values, the rest of the context, request and handler may all differ), either
both runs invoke their handler exactly once, or both runs invoke no handler
and return the same nil response and the same status error (same code, same
message). -/
theorem tokenInterceptor_presence_only (info : UnaryServerInfo)
    (ctx₁ ctx₂ : Context) (req₁ req₂ : Any) (handler₁ handler₂ : UnaryHandler)
    (md₁ md₂ : metadata.MD)
    (hmd₁ : metadata.FromIncomingContext ctx₁ = some md₁)
    (hmd₂ : metadata.FromIncomingContext ctx₂ = some md₂)
    (hkeys : ∀ k, k ∈ md₁.map Prod.fst ↔ k ∈ md₂.map Prod.fst) :
    ((TokenInterceptor ctx₁ req₁ info handler₁).calls = [(ctx₁, req₁)] ∧
      (TokenInterceptor ctx₂ req₂ info handler₂).calls = [(ctx₂, req₂)]) ∨
    ((TokenInterceptor ctx₁ req₁ info handler₁).calls = [] ∧
      (TokenInterceptor ctx₂ req₂ info handler₂).calls = [] ∧
      (TokenInterceptor ctx₁ req₁ info handler₁).resp = none ∧
      (TokenInterceptor ctx₂ req₂ info handler₂).resp = none ∧
      ∃ code msg,
        (TokenInterceptor ctx₁ req₁ info handler₁).err = some (GoError.status code msg) ∧
        (TokenInterceptor ctx₂ req₂ info handler₂).err = some (GoError.status code msg)) := by
  have hb := metadata.MD.hasKey_congr md₁ md₂ hkeys "bootstrap-token"
  have hn := metadata.MD.hasKey_congr md₁ md₂ hkeys "node-token"
  cases hm : strings.Contains info.FullMethod "/GetToken"
  · cases hk : metadata.MD.hasKey md₂ "node-token"
    · right
      simp [TokenInterceptor, hmd₁, hmd₂, hm, hn, hk, reject, status.Errorf]
    · left
      simp [TokenInterceptor, hmd₁, hmd₂, hm, hn, hk, callHandler]
  · cases hk : metadata.MD.hasKey md₂ "bootstrap-token"
    · right
      simp [TokenInterceptor, hmd₁, hmd₂, hm, hb, hk, reject, status.Errorf]
    · left
      simp [TokenInterceptor, hmd₁, hmd₂, hm, hb, hk, callHandler]

/-- C9 at two concrete calls of `CheckConnState` whose metadata both have the
single key `node-token`, once with the value `abc` and once with no value. -/
theorem tokenInterceptor_presence_only_witness :
    ((TokenInterceptor ctxNodeToken sampleReq nodeMethod echoHandler).calls
        = [(ctxNodeToken, sampleReq)] ∧
      (TokenInterceptor ctxNodeTokenEmpty sampleReq nodeMethod echoHandler).calls
        = [(ctxNodeTokenEmpty, sampleReq)]) ∨
    ((TokenInterceptor ctxNodeToken sampleReq nodeMethod echoHandler).calls = [] ∧
      (TokenInterceptor ctxNodeTokenEmpty sampleReq nodeMethod echoHandler).calls = [] ∧
      (TokenInterceptor ctxNodeToken sampleReq nodeMethod echoHandler).resp = none ∧
      (TokenInterceptor ctxNodeTokenEmpty sampleReq nodeMethod echoHandler).resp = none ∧
      ∃ code msg,
        (TokenInterceptor ctxNodeToken sampleReq nodeMethod echoHandler).err
          = some (GoError.status code msg) ∧
        (TokenInterceptor ctxNodeTokenEmpty sampleReq nodeMethod echoHandler).err
          = some (GoError.status code msg)) :=
  tokenInterceptor_presence_only nodeMethod ctxNodeToken ctxNodeTokenEmpty sampleReq sampleReq
    echoHandler echoHandler [("node-token", ["abc"])] [("node-token", [])] rfl rfl
    (by intro k; simp)

/-- C10, as the claim words it, fails: a `GetToken` call without the
bootstrap key is rejected with the message "plz provide bootstrap-token", not
"missing bootstrap-token", and a `CheckConnState` call without the node key
with "plz provide node-token", not "missing node-token". -/
theorem tokenInterceptor_reason_text_counterexample :
    (TokenInterceptor ctxNoToken sampleReq enrollMethod echoHandler).err
      = some (GoError.status codes.Code.Aborted "plz provide bootstrap-token") ∧
    (TokenInterceptor ctxNoToken sampleReq enrollMethod echoHandler).err.map GoError.message
      ≠ some "missing bootstrap-token" ∧
    (TokenInterceptor ctxNoToken sampleReq nodeMethod echoHandler).err
      = some (GoError.status codes.Code.Aborted "plz provide node-token") ∧
    (TokenInterceptor ctxNoToken sampleReq nodeMethod echoHandler).err.map GoError.message
      ≠ some "missing node-token" := by
  decide

/-- C10, amended: when the interceptor rejects a call because the required
key is absent, the error is the Aborted status with the message
"plz provide bootstrap-token" for a method whose name contains "/GetToken" and
"plz provide node-token" for every other method. -/
theorem tokenInterceptor_reason_text (ctx : Context) (req : Any) (info : UnaryServerInfo)
    (handler : UnaryHandler) (md : metadata.MD)
    (hmd : metadata.FromIncomingContext ctx = some md) :
    (strings.Contains info.FullMethod "/GetToken" = true →
      metadata.MD.hasKey md "bootstrap-token" = false →
      (TokenInterceptor ctx req info handler).err
        = some (GoError.status codes.Code.Aborted "plz provide bootstrap-token")) ∧
    (strings.Contains info.FullMethod "/GetToken" = false →
      metadata.MD.hasKey md "node-token" = false →
      (TokenInterceptor ctx req info handler).err
        = some (GoError.status codes.Code.Aborted "plz provide node-token")) := by
  constructor
  · intro hmethod hkey
    simp [TokenInterceptor, hmd, hmethod, hkey, reject, status.Errorf]
  · intro hmethod hkey
    simp [TokenInterceptor, hmd, hmethod, hkey, reject, status.Errorf]

/-- C10, amended, at a concrete `GetToken` call and a concrete
`CheckConnState` call, both with metadata that holds no token key. -/
theorem tokenInterceptor_reason_text_witness :
    (TokenInterceptor ctxNoToken sampleReq enrollMethod echoHandler).err
      = some (GoError.status codes.Code.Aborted "plz provide bootstrap-token") ∧
    (TokenInterceptor ctxNoToken sampleReq nodeMethod echoHandler).err
      = some (GoError.status codes.Code.Aborted "plz provide node-token") :=
  ⟨(tokenInterceptor_reason_text ctxNoToken sampleReq enrollMethod echoHandler
      [("user-agent", ["grpc-go/1.46.0"])] rfl).1 (by decide) (by decide),
   (tokenInterceptor_reason_text ctxNoToken sampleReq nodeMethod echoHandler
      [("user-agent", ["grpc-go/1.46.0"])] rfl).2 (by decide) (by decide)⟩

/-! ## Server start-up -/

/-- A successful `credentials.NewServerTLSFromFile` on the configured server
paths yields the credential `serverOnlyCreds`. -/
theorem GrpcServer.newServerTLSFromFile_ok (w : World) (s : GrpcServer)
    (c : credentials.TransportCredentials)
    (h : credentials.NewServerTLSFromFile w s.grpcTlsConfig.ServerCertFile
      s.grpcTlsConfig.ServerKeyFile = .ok c) :
    c = GrpcServer.serverOnlyCreds w s := by
  unfold credentials.NewServerTLSFromFile at h
  unfold GrpcServer.serverOnlyCreds
  rcases hl : tls.LoadX509KeyPair w s.grpcTlsConfig.ServerCertFile
      s.grpcTlsConfig.ServerKeyFile with ⟨cert, _ | err⟩
  · simp [hl] at h
    exact h.symm
  · simp [hl] at h

/-- The option list of the `grpc.NewServer` call in lines 115-173, by the
guard of line 116: when it holds, `NewServerTLSFromFile` succeeded with some
credential and the list is that credential followed by the one of line 140;
when it does not, the list is the credential of line 140 alone. -/
theorem GrpcServer.serveOn_options (w : World) (s : GrpcServer) (lis : Listener) (addr : String)
    (opts : List grpc.ServerOption)
    (h : List.findSome? Event.serverOptions (GrpcServer.serveOn w s lis addr).2 = some opts) :
    ((len s.grpcTlsConfig.ServerCertFile != 0 && len s.grpcTlsConfig.ServerKeyFile != 0) = true →
      ∃ c, credentials.NewServerTLSFromFile w s.grpcTlsConfig.ServerCertFile
          s.grpcTlsConfig.ServerKeyFile = .ok c ∧
        opts = [grpc.ServerOption.Creds c,
          grpc.ServerOption.Creds (GrpcServer.mutualCreds w s)]) ∧
    ((len s.grpcTlsConfig.ServerCertFile != 0 && len s.grpcTlsConfig.ServerKeyFile != 0) = false →
      opts = [grpc.ServerOption.Creds (GrpcServer.mutualCreds w s)]) := by
  unfold GrpcServer.serveOn at h
  simp only [] at h
  cases hlen : (len s.grpcTlsConfig.ServerCertFile != 0 && len s.grpcTlsConfig.ServerKeyFile != 0) <;>
  cases hnew : credentials.NewServerTLSFromFile w s.grpcTlsConfig.ServerCertFile
      s.grpcTlsConfig.ServerKeyFile <;>
  cases hload : (tls.LoadX509KeyPair w s.grpcTlsConfig.ServerCertFile
      s.grpcTlsConfig.ServerKeyFile).2 <;>
  cases hread : (w.ReadFile s.grpcTlsConfig.CAFile).2 <;>
  cases happ : (x509.CertPool.AppendCertsFromPEM w x509.NewCertPool
      (w.ReadFile s.grpcTlsConfig.CAFile).1).2 <;>
  cases hserve : w.Serve lis <;>
  simp [hlen, hnew, hload, hread, happ, hserve, logErr, Event.serverOptions] at h <;>
  simp [← h, GrpcServer.mutualCreds]

/-- The option list of a run of `StartGrpcServerTcp` that reaches
`grpc.NewServer`, by the guard of line 116: with both server paths set it is
the server-only credential of line 117 followed by the credential of line 140,
and otherwise the credential of line 140 alone. -/
theorem GrpcServer.startGrpcServerTcp_options (w : World) (s : GrpcServer)
    (opts : List grpc.ServerOption)
    (h : (GrpcServer.StartGrpcServerTcp w s).serverOptions = some opts) :
    ((len s.grpcTlsConfig.ServerCertFile != 0 && len s.grpcTlsConfig.ServerKeyFile != 0) = true →
      credentials.NewServerTLSFromFile w s.grpcTlsConfig.ServerCertFile
          s.grpcTlsConfig.ServerKeyFile = .ok (GrpcServer.serverOnlyCreds w s) ∧
        opts = [grpc.ServerOption.Creds (GrpcServer.serverOnlyCreds w s),
          grpc.ServerOption.Creds (GrpcServer.mutualCreds w s)]) ∧
    ((len s.grpcTlsConfig.ServerCertFile != 0 && len s.grpcTlsConfig.ServerKeyFile != 0) = false →
      opts = [grpc.ServerOption.Creds (GrpcServer.mutualCreds w s)]) := by
  have key : ∃ lis addr,
      List.findSome? Event.serverOptions (GrpcServer.serveOn w s lis addr).2 = some opts := by
    unfold Run.serverOptions GrpcServer.StartGrpcServerTcp at h
    cases hcheck : w.CheckGrpcClientCertConfig s.grpcTlsConfig s.tlsDir with
    | some err => simp [hcheck, logErr, Event.serverOptions] at h
    | none =>
      rcases hlisten : w.Listen "tcp" (":" ++ toString s.port) with ⟨_ | lis, _ | err⟩
      · simp [hcheck, hlisten, Event.serverOptions] at h
      · simp [hcheck, hlisten, Event.serverOptions] at h
      · simp [hcheck, hlisten, Event.serverOptions, List.findSome?_append] at h
        exact ⟨lis, _, h⟩
      · simp [hcheck, hlisten, logErr, Event.serverOptions] at h
  obtain ⟨lis, addr, hfind⟩ := key
  have hshape := GrpcServer.serveOn_options w s lis addr opts hfind
  refine ⟨fun hguard => ?_, hshape.2⟩
  obtain ⟨c, hc, hopts⟩ := hshape.1 hguard
  have hceq := GrpcServer.newServerTLSFromFile_ok w s c hc
  subst hceq
  exact ⟨hc, hopts⟩

/-- The run reaches `grpc.NewServer` whenever the certificate check passes,
the bind succeeds and, with both server paths set, the server pair loads. -/
theorem GrpcServer.startGrpcServerTcp_reaches_newServer (w : World) (s : GrpcServer)
    (lis : Listener)
    (hcheck : w.CheckGrpcClientCertConfig s.grpcTlsConfig s.tlsDir = none)
    (hlisten : w.Listen "tcp" (":" ++ toString s.port) = (some lis, none))
    (hpair : (len s.grpcTlsConfig.ServerCertFile != 0 &&
        len s.grpcTlsConfig.ServerKeyFile != 0) = true →
      ∃ c, credentials.NewServerTLSFromFile w s.grpcTlsConfig.ServerCertFile
        s.grpcTlsConfig.ServerKeyFile = .ok c) :
    (GrpcServer.StartGrpcServerTcp w s).serverOptions.isSome = true ∧
    (GrpcServer.StartGrpcServerTcp w s).served = true := by
  unfold Run.serverOptions Run.served GrpcServer.StartGrpcServerTcp GrpcServer.serveOn
  simp only [hcheck, hlisten]
  cases hlen : (len s.grpcTlsConfig.ServerCertFile != 0 && len s.grpcTlsConfig.ServerKeyFile != 0) <;>
  cases hnew : credentials.NewServerTLSFromFile w s.grpcTlsConfig.ServerCertFile
      s.grpcTlsConfig.ServerKeyFile <;>
  cases hload : (tls.LoadX509KeyPair w s.grpcTlsConfig.ServerCertFile
      s.grpcTlsConfig.ServerKeyFile).2 <;>
  cases hread : (w.ReadFile s.grpcTlsConfig.CAFile).2 <;>
  cases happ : (x509.CertPool.AppendCertsFromPEM w x509.NewCertPool
      (w.ReadFile s.grpcTlsConfig.CAFile).1).2 <;>
  cases hserve : w.Serve lis <;>
  simp [hlen, hnew, hload, hread, happ, hserve, logErr, Event.serverOptions, Event.isServe,
    List.findSome?_append] at hpair ⊢

/-- Whenever `StartGrpcServerTcp` constructs a server, the credential in
effect is the one of line 140: its client-auth policy is
RequireAndVerifyClientCert, its ClientCAs is the pool after
`AppendCertsFromPEM` on the data read from the CA file, and its certificate is
the value `tls.LoadX509KeyPair` returned. -/
theorem GrpcServer.startGrpcServerTcp_effective_creds (w : World) (s : GrpcServer)
    (opts : List grpc.ServerOption)
    (h : (GrpcServer.StartGrpcServerTcp w s).serverOptions = some opts) :
    grpc.effectiveCreds opts = some (GrpcServer.mutualCreds w s) ∧
    (GrpcServer.mutualCreds w s).config.ClientAuth
      = tls.ClientAuthType.RequireAndVerifyClientCert := by
  have hshape := GrpcServer.startGrpcServerTcp_options w s opts h
  cases hguard : (len s.grpcTlsConfig.ServerCertFile != 0 &&
      len s.grpcTlsConfig.ServerKeyFile != 0)
  · have h₁ := hshape.2 hguard
    subst h₁
    exact ⟨rfl, rfl⟩
  · have h₂ := (hshape.1 hguard).2
    subst h₂
    exact ⟨rfl, rfl⟩

/-- When the certificate check passes and `net.Listen` returns a nil listener,
`StartGrpcServerTcp` ends in a panic, whatever error came with it. -/
theorem GrpcServer.startGrpcServerTcp_nil_listener (w : World) (s : GrpcServer)
    (hcheck : w.CheckGrpcClientCertConfig s.grpcTlsConfig s.tlsDir = none)
    (hlisten : (w.Listen "tcp" (":" ++ toString s.port)).1 = none) :
    (GrpcServer.StartGrpcServerTcp w s).outcome = Outcome.panicked nilDereference := by
  rcases hl : w.Listen "tcp" (":" ++ toString s.port) with ⟨_ | lis, err⟩
  · simp [GrpcServer.StartGrpcServerTcp, hcheck, hl]
  · simp [hl] at hlisten

/-- When both server paths are set and the pair does not load, the error of
`credentials.NewServerTLSFromFile` is returned and `Serve` is not called. -/
theorem GrpcServer.startGrpcServerTcp_pair_error (w : World) (s : GrpcServer) (lis : Listener)
    (err : GoError)
    (hcheck : w.CheckGrpcClientCertConfig s.grpcTlsConfig s.tlsDir = none)
    (hlisten : w.Listen "tcp" (":" ++ toString s.port) = (some lis, none))
    (hcert : len s.grpcTlsConfig.ServerCertFile ≠ 0)
    (hkey : len s.grpcTlsConfig.ServerKeyFile ≠ 0)
    (hload : credentials.NewServerTLSFromFile w s.grpcTlsConfig.ServerCertFile
      s.grpcTlsConfig.ServerKeyFile = .error err) :
    (GrpcServer.StartGrpcServerTcp w s).outcome = Outcome.returned (some err) ∧
    (GrpcServer.StartGrpcServerTcp w s).served = false ∧
    (GrpcServer.StartGrpcServerTcp w s).serverOptions = none := by
  simp [GrpcServer.StartGrpcServerTcp, GrpcServer.serveOn, Run.served, Run.serverOptions,
    hcheck, hlisten, hcert, hkey, hload, logErr, Event.isServe, Event.serverOptions]

/-- C4, as the claim words it, fails: with valid files on every path the
server is constructed from two `Creds` options, and no option of the list is a
unary interceptor. -/
theorem startGrpcServerTcp_interceptor_counterexample :
    ∃ opts, (GrpcServer.StartGrpcServerTcp goodWorld (serverWith fullTls)).serverOptions
        = some opts ∧
      opts.length = 2 ∧
      opts.any grpc.ServerOption.isUnaryInterceptor = false :=
  ⟨[grpc.ServerOption.Creds goodServerOnlyCreds, grpc.ServerOption.Creds goodMutualCreds],
    by rfl, by rfl, by rfl⟩

/-- C4, amended: for every configuration under which `StartGrpcServerTcp`
reaches `grpc.NewServer`, the option list passed to it holds transport
credentials only and no option of it is a unary interceptor, so
`TokenInterceptor` is attached to no server.  When both server paths are
non-empty (the guard of line 116), `credentials.NewServerTLSFromFile`
succeeded and the list is exactly the server-only credential of line 117 (the
loaded pair, no client-auth policy, no ClientCAs) followed by the mutual-TLS
credential of line 140; when one of the paths is empty the list is exactly the
credential of line 140. -/
theorem startGrpcServerTcp_no_interceptor (w : World) (s : GrpcServer)
    (opts : List grpc.ServerOption)
    (h : (GrpcServer.StartGrpcServerTcp w s).serverOptions = some opts) :
    (∀ o ∈ opts, o.isUnaryInterceptor = false) ∧
    (len s.grpcTlsConfig.ServerCertFile ≠ 0 ∧ len s.grpcTlsConfig.ServerKeyFile ≠ 0 →
      credentials.NewServerTLSFromFile w s.grpcTlsConfig.ServerCertFile
          s.grpcTlsConfig.ServerKeyFile
        = .ok (credentials.NewTLS
            { Certificates := [(tls.LoadX509KeyPair w s.grpcTlsConfig.ServerCertFile
                s.grpcTlsConfig.ServerKeyFile).1],
              ClientAuth := tls.ClientAuthType.NoClientCert,
              ClientCAs := none }) ∧
      opts = [grpc.ServerOption.Creds (GrpcServer.serverOnlyCreds w s),
        grpc.ServerOption.Creds (GrpcServer.mutualCreds w s)]) ∧
    (len s.grpcTlsConfig.ServerCertFile = 0 ∨ len s.grpcTlsConfig.ServerKeyFile = 0 →
      opts = [grpc.ServerOption.Creds (GrpcServer.mutualCreds w s)]) := by
  have hshape := GrpcServer.startGrpcServerTcp_options w s opts h
  refine ⟨?_, ?_, ?_⟩
  · cases hguard : (len s.grpcTlsConfig.ServerCertFile != 0 &&
        len s.grpcTlsConfig.ServerKeyFile != 0)
    · have h₁ := hshape.2 hguard
      subst h₁
      simp [grpc.ServerOption.isUnaryInterceptor]
    · have h₂ := (hshape.1 hguard).2
      subst h₂
      simp [grpc.ServerOption.isUnaryInterceptor]
  · rintro ⟨hcert, hkey⟩
    exact hshape.1 (by simp [hcert, hkey])
  · intro hempty
    apply hshape.2
    rcases hempty with hcert | hkey
    · simp [hcert]
    · simp [hkey]

/-- C4, amended, at two configurations in `goodWorld`: with `fullTls` (both
server paths set) the list is the server-only credential followed by the
mutual-TLS credential; with `noServerPairTls` (both paths empty) it is the
mutual-TLS credential alone.  Neither list holds a unary interceptor. -/
theorem startGrpcServerTcp_no_interceptor_witness :
    ((GrpcServer.StartGrpcServerTcp goodWorld (serverWith fullTls)).serverOptions
        = some [grpc.ServerOption.Creds goodServerOnlyCreds,
            grpc.ServerOption.Creds goodMutualCreds] ∧
      (len (serverWith fullTls).grpcTlsConfig.ServerCertFile ≠ 0 ∧
        len (serverWith fullTls).grpcTlsConfig.ServerKeyFile ≠ 0) ∧
      (∀ o ∈ [grpc.ServerOption.Creds goodServerOnlyCreds,
          grpc.ServerOption.Creds goodMutualCreds], o.isUnaryInterceptor = false) ∧
      [grpc.ServerOption.Creds goodServerOnlyCreds, grpc.ServerOption.Creds goodMutualCreds]
        = [grpc.ServerOption.Creds (GrpcServer.serverOnlyCreds goodWorld (serverWith fullTls)),
            grpc.ServerOption.Creds (GrpcServer.mutualCreds goodWorld (serverWith fullTls))]) ∧
    ((GrpcServer.StartGrpcServerTcp goodWorld (serverWith noServerPairTls)).serverOptions
        = some [grpc.ServerOption.Creds
            (GrpcServer.mutualCreds goodWorld (serverWith noServerPairTls))] ∧
      (len (serverWith noServerPairTls).grpcTlsConfig.ServerCertFile = 0 ∨
        len (serverWith noServerPairTls).grpcTlsConfig.ServerKeyFile = 0) ∧
      (∀ o ∈ [grpc.ServerOption.Creds
          (GrpcServer.mutualCreds goodWorld (serverWith noServerPairTls))],
        o.isUnaryInterceptor = false)) :=
  ⟨⟨by rfl, by decide,
    (startGrpcServerTcp_no_interceptor goodWorld (serverWith fullTls)
      [grpc.ServerOption.Creds goodServerOnlyCreds, grpc.ServerOption.Creds goodMutualCreds]
      (by rfl)).1,
    ((startGrpcServerTcp_no_interceptor goodWorld (serverWith fullTls)
      [grpc.ServerOption.Creds goodServerOnlyCreds, grpc.ServerOption.Creds goodMutualCreds]
      (by rfl)).2.1 (by decide)).2⟩,
   ⟨by rfl, by decide,
    (startGrpcServerTcp_no_interceptor goodWorld (serverWith noServerPairTls)
      [grpc.ServerOption.Creds (GrpcServer.mutualCreds goodWorld (serverWith noServerPairTls))]
      (by rfl)).1⟩⟩

/-- C5 at a configuration without server certificate and key paths: the check
of line 116 skips the first credential, `tls.LoadX509KeyPair` fails on the
empty paths, the failure is logged, and the server is constructed and served
with a credential that has the require-and-verify policy and the CA pool but
presents the zero certificate, not a loaded key pair. -/
theorem startGrpcServerTcp_no_pair_presents_zero_certificate :
    (GrpcServer.StartGrpcServerTcp goodWorld (serverWith noServerPairTls)).serverOptions.bind
        grpc.effectiveCreds
      = some (credentials.NewTLS
          { Certificates := [tls.Certificate.zero],
            ClientAuth := tls.ClientAuthType.RequireAndVerifyClientCert,
            ClientCAs := some { certs := ["CA CERT DER"] } }) ∧
    (tls.LoadX509KeyPair goodWorld noServerPairTls.ServerCertFile
        noServerPairTls.ServerKeyFile).2 = some (noSuchFile "") ∧
    (GrpcServer.StartGrpcServerTcp goodWorld (serverWith noServerPairTls)).served = true := by
  decide

/-- C6 at a CA path that does not exist and at a CA file without any
certificate: both failures are logged only; the server is constructed with an
empty ClientCAs pool, `Serve` is called, and the function returns nil. -/
theorem startGrpcServerTcp_trust_store_failure_not_returned :
    ((GrpcServer.StartGrpcServerTcp goodWorld (serverWith missingCATls)).outcome
        = Outcome.returned none ∧
      (GrpcServer.StartGrpcServerTcp goodWorld (serverWith missingCATls)).served = true ∧
      (GrpcServer.StartGrpcServerTcp goodWorld (serverWith missingCATls)).errorLog
        = [("ioutil.ReadFile err: %v", ["open tls/absent-ca.pem: no such file or directory"]),
           ("certPool.AppendCertsFromPEM err", [])] ∧
      ((GrpcServer.StartGrpcServerTcp goodWorld (serverWith missingCATls)).serverOptions.bind
          grpc.effectiveCreds).map (fun c => c.config.ClientCAs)
        = some (some { certs := [] })) ∧
    ((GrpcServer.StartGrpcServerTcp goodWorld (serverWith emptyCATls)).outcome
        = Outcome.returned none ∧
      (GrpcServer.StartGrpcServerTcp goodWorld (serverWith emptyCATls)).served = true ∧
      (GrpcServer.StartGrpcServerTcp goodWorld (serverWith emptyCATls)).errorLog
        = [("certPool.AppendCertsFromPEM err", [])] ∧
      ((GrpcServer.StartGrpcServerTcp goodWorld (serverWith emptyCATls)).serverOptions.bind
          grpc.effectiveCreds).map (fun c => c.config.ClientCAs)
        = some (some { certs := [] })) := by
  decide

/-- C7 at a partial configuration (server key path set, server certificate
path empty): the error of `tls.LoadX509KeyPair` is logged only; the server is
constructed with the zero certificate, `Serve` is called, and the function
returns nil. -/
theorem startGrpcServerTcp_partial_pair_not_returned :
    (GrpcServer.StartGrpcServerTcp goodWorld (serverWith partialTls)).outcome
      = Outcome.returned none ∧
    (GrpcServer.StartGrpcServerTcp goodWorld (serverWith partialTls)).served = true ∧
    (GrpcServer.StartGrpcServerTcp goodWorld (serverWith partialTls)).errorLog
      = [("tls.LoadX509KeyPair err: %v", ["open : no such file or directory"])] ∧
    ((GrpcServer.StartGrpcServerTcp goodWorld (serverWith partialTls)).serverOptions.bind
        grpc.effectiveCreds).map (fun c => c.config.Certificates)
      = some [tls.Certificate.zero] := by
  decide

/-- C8 at a port already in use: the certificate check passes, `net.Listen`
returns a nil listener and an error, and the call ends in the nil-dereference
panic of `defer lis.Close()`; the error of `net.Listen` is not returned. -/
theorem startGrpcServerTcp_bind_failure_panics :
    portInUseWorld.CheckGrpcClientCertConfig fullTls "tls" = none ∧
    portInUseWorld.Listen "tcp" ":6440"
      = (none, some (GoError.other "listen tcp :6440: bind: address already in use")) ∧
    (GrpcServer.StartGrpcServerTcp portInUseWorld (serverWith fullTls)).outcome
      = Outcome.panicked nilDereference ∧
    (GrpcServer.StartGrpcServerTcp portInUseWorld (serverWith fullTls)).outcome
      ≠ Outcome.returned
          (some (GoError.other "listen tcp :6440: bind: address already in use")) := by
  decide
